import Mathlib

/-!
Verification development for the turn-orchestration and dynamic tool-invocation
engine of the Neuro VTuber agent.  Python source files are shallowly embedded:
pure functions become Lean functions, stateful methods become explicit state
transformers, and the outbound socket.io queue becomes an explicit event list.
Text is modelled as `List Char` where character-level scanning matters.
-/

namespace Neuro

/-! ## Signals (src/signals.py)

The shared `Signals` object.  Each property setter stores the value and pushes
an event onto `sio_queue`; the three per-generator thinking setters additionally
call `_update_combined_thinking`, which recomputes the combined `AI_thinking`
flag and emits an event only when the derived value changed.  The legacy direct
`AI_thinking` setter stores and emits unconditionally. -/

inductive Ev where
  | humanSpeaking (b : Bool)
  | aiSpeaking (b : Bool)
  | aiThinking (b : Bool)
  | textThinking (b : Bool)
  | toolThinking (b : Bool)
  | imageThinking (b : Bool)
  | resetNextMessage
  | fullPrompt
  deriving DecidableEq, Repr

structure SigState where
  human_speaking : Bool
  AI_speaking : Bool
  AI_thinking : Bool
  text_llm_thinking : Bool
  tool_llm_thinking : Bool
  image_llm_thinking : Bool
  events : List Ev
  deriving DecidableEq, Repr

def initSig : SigState :=
  { human_speaking := false, AI_speaking := false, AI_thinking := false
    text_llm_thinking := false, tool_llm_thinking := false
    image_llm_thinking := false, events := [] }

/-- `Signals._update_combined_thinking`: recompute the OR of the three
individual thinking flags; store it and emit an `AI_thinking` event only if the
derived value differs from the stored combined flag. -/
def updateCombinedThinking (s : SigState) : SigState :=
  let n := s.text_llm_thinking || s.tool_llm_thinking || s.image_llm_thinking
  if n = s.AI_thinking then s
  else { s with AI_thinking := n, events := s.events ++ [Ev.aiThinking n] }

/-- Setter for `Signals.text_llm_thinking`: store, emit, recompute combined. -/
def setTextThinking (s : SigState) (v : Bool) : SigState :=
  updateCombinedThinking
    { s with text_llm_thinking := v, events := s.events ++ [Ev.textThinking v] }

/-- Setter for `Signals.tool_llm_thinking`. -/
def setToolThinking (s : SigState) (v : Bool) : SigState :=
  updateCombinedThinking
    { s with tool_llm_thinking := v, events := s.events ++ [Ev.toolThinking v] }

/-- Setter for `Signals.image_llm_thinking`. -/
def setImageThinking (s : SigState) (v : Bool) : SigState :=
  updateCombinedThinking
    { s with image_llm_thinking := v, events := s.events ++ [Ev.imageThinking v] }

/-- The legacy direct setter for `Signals.AI_thinking`: stores the value and
emits unconditionally, without touching the individual flags. -/
def setAIThinkingDirect (s : SigState) (v : Bool) : SigState :=
  { s with AI_thinking := v, events := s.events ++ [Ev.aiThinking v] }

/-- Setter for `Signals.human_speaking`. -/
def setHumanSpeaking (s : SigState) (v : Bool) : SigState :=
  { s with human_speaking := v, events := s.events ++ [Ev.humanSpeaking v] }

/-- Setter for `Signals.AI_speaking`. -/
def setAISpeaking (s : SigState) (v : Bool) : SigState :=
  { s with AI_speaking := v, events := s.events ++ [Ev.aiSpeaking v] }

/-- One call to the `Signals` mutation interface. -/
inductive SigOp where
  | text (b : Bool)
  | tool (b : Bool)
  | image (b : Bool)
  | aiDirect (b : Bool)
  | human (b : Bool)
  | speak (b : Bool)
  deriving DecidableEq, Repr

def applySigOp (s : SigState) : SigOp → SigState
  | SigOp.text b => setTextThinking s b
  | SigOp.tool b => setToolThinking s b
  | SigOp.image b => setImageThinking s b
  | SigOp.aiDirect b => setAIThinkingDirect s b
  | SigOp.human b => setHumanSpeaking s b
  | SigOp.speak b => setAISpeaking s b

def runSigOps (ops : List SigOp) : SigState :=
  ops.foldl applySigOp initSig

/-- The combined-thinking invariant of the spec. -/
def combinedInv (s : SigState) : Prop :=
  s.AI_thinking = (s.text_llm_thinking || s.tool_llm_thinking || s.image_llm_thinking)

instance (s : SigState) : Decidable (combinedInv s) := by
  unfold combinedInv; infer_instance

/-- Whether an op avoids the legacy direct `AI_thinking` setter. -/
def SigOp.notDirect : SigOp → Bool
  | SigOp.aiDirect _ => false
  | _ => true

def derivedThinking (s : SigState) : Bool :=
  s.text_llm_thinking || s.tool_llm_thinking || s.image_llm_thinking

/-- Number of `AI_thinking` events in an event list. -/
def countAIEvents (evs : List Ev) : Nat :=
  (evs.filter fun e => match e with | Ev.aiThinking _ => true | _ => false).length

/-- Number of `text_llm_thinking := false` events in an event list (how often
the per-generator flag was cleared). -/
def countTextClearEvents (evs : List Ev) : Nat :=
  (evs.filter fun e => e = Ev.textThinking false).length

/-! ## Prompter.prompt_now (src/prompter.py)

`prompt_now` returns `False` on the two guard conditions, `True` on the three
trigger conditions, and falls through returning `None` (falsy) otherwise.  We
keep the three-valued result as `Option Bool` and define truthiness as Python
does. -/

structure PromptNowView where
  stt_ready : Bool
  tts_ready : Bool
  human_speaking : Bool
  AI_thinking : Bool
  AI_speaking : Bool
  new_message : Bool
  recentTwitchLen : Nat
  timeSinceLastMessage : ℚ
  patience : ℚ
  deriving DecidableEq

def prompt_now (v : PromptNowView) : Option Bool :=
  if ¬ v.stt_ready ∨ ¬ v.tts_ready then some false
  else if v.human_speaking || v.AI_thinking || v.AI_speaking then some false
  else if v.new_message then some true
  else if 0 < v.recentTwitchLen then some true
  else if v.patience < v.timeSinceLastMessage then some true
  else none

/-- Python truthiness of the value returned by `prompt_now`. -/
def pyTruthy : Option Bool → Bool
  | some b => b
  | none => false

/-- The scheduler tick starts a primary generation iff `prompt_now()` is
truthy (src/prompter.py line 84). -/
def primaryGenerationStarts (v : PromptNowView) : Bool :=
  pyTruthy (prompt_now v)

/-! ## Prompter tool dispatch (src/prompter.py lines 62-81)

Each tick the loop first resolves a completed `pending_tool_future` and then,
if `tool_execution_needed` is set, a tool LLM exists, and no future is
outstanding, starts one pass via `prompt_async` and clears the flag.  The flag
is cleared ONLY at the start of a pass.  `outstanding` counts outstanding tool
futures (the single slot `pending_tool_future` holds 0 or 1). -/

structure ToolSched where
  outstanding : Nat
  need : Bool
  deriving DecidableEq, Repr

/-- External happenings of one tick: whether the text LLM set
`tool_execution_needed` since the last tick, and whether the outstanding
future (if any) has completed. -/
structure ToolTickIn where
  trigger : Bool
  futureDone : Bool
  deriving DecidableEq, Repr

/-- One scheduler tick restricted to the tool-dispatch section.  Returns the
new state and whether a tool pass was started this tick. -/
def toolTick (hasToolLLM : Bool) (s : ToolSched) (i : ToolTickIn) : ToolSched × Bool :=
  let s0 := if i.trigger then { s with need := true } else s
  let s1 := if s0.outstanding ≠ 0 ∧ i.futureDone
            then { s0 with outstanding := s0.outstanding - 1 } else s0
  if s1.need ∧ hasToolLLM ∧ s1.outstanding = 0
  then ({ outstanding := s1.outstanding + 1, need := false }, true)
  else (s1, false)

def runToolTicks (hasToolLLM : Bool) (s : ToolSched) : List ToolTickIn → ToolSched
  | [] => s
  | i :: is => runToolTicks hasToolLLM (toolTick hasToolLLM s i).1 is

/-- The per-tick started flags of a run, in order. -/
def runToolStarts (hasToolLLM : Bool) (s : ToolSched) : List ToolTickIn → List Bool
  | [] => []
  | i :: is =>
    (toolTick hasToolLLM s i).2 :: runToolStarts hasToolLLM (toolTick hasToolLLM s i).1 is

def initToolSched : ToolSched := { outstanding := 0, need := false }

/-! ## Character-list string primitives

The Python string operations used by the embedded code, over `List Char`. -/

/-- Python whitespace (the characters stripped by `str.strip()`). -/
def isPySpace (c : Char) : Bool :=
  c = ' ' || c = '\t' || c = '\n' || c = '\r' || c = '\x0b' || c = '\x0c'

/-- `str.strip()`: drop leading and trailing whitespace. -/
def pyStrip (l : List Char) : List Char :=
  ((l.dropWhile isPySpace).reverse.dropWhile isPySpace).reverse

/-- `str.lower()` (ASCII case folding suffices for the embedded text). -/
def pyLower (l : List Char) : List Char :=
  l.map Char.toLower

/-- Python substring containment `needle in haystack`. -/
def containsSub (needle : List Char) : List Char → Bool
  | [] => needle.isEmpty
  | c :: rest => needle.isPrefixOf (c :: rest) || containsSub needle rest

/-- `str.split()` with no argument: split on whitespace, discarding empties. -/
def pySplitWs (l : List Char) : List (List Char) :=
  (l.foldr
    (fun c acc =>
      if isPySpace c then [] :: acc
      else
        match acc with
        | [] => [[c]]
        | w :: ws => (c :: w) :: ws)
    []).filter (fun w => ¬ w.isEmpty)

/-- Fuelled worker for `replaceSub`; the fuel is an upper bound on the input
length (the scan advances at least one character per step). -/
def rsF (needle repl : List Char) : Nat → List Char → List Char
  | _, [] => []
  | 0, l => l
  | Nat.succ n, c :: rest =>
    if needle ≠ [] ∧ needle.isPrefixOf (c :: rest)
    then repl ++ rsF needle repl n (rest.drop (needle.length - 1))
    else c :: rsF needle repl n rest

/-- `str.replace(needle, repl)`: leftmost non-overlapping replacement. -/
def replaceSub (needle repl : List Char) (l : List Char) : List Char :=
  rsF needle repl l.length l

/-! ## TOOL_TRIGGER marker scanning (src/llmWrappers/abstractLLMWrapper.py 222-239)

The primary generation path looks for the Python regex
`\[TOOL_TRIGGER:(.*?)\]` (non-greedy, `.` does not match a newline) in the
accumulated message, extracts the first match's group, and removes every
leftmost non-overlapping complete match with `re.sub`.  `MK` is the fixed
marker prefix. -/

def MK : List Char := "[TOOL_TRIGGER:".data

/-- Scan for the closing bracket of `.*?\]`: the nearest following character
equal to the closing bracket, with no newline before it.  Returns the inner
text and the remainder after the match. -/
def scanCloseInner : List Char → Option (List Char × List Char)
  | [] => none
  | c :: rest =>
    if c = ']' then some ([], rest)
    else if c = '\n' then none
    else (scanCloseInner rest).map (fun p => (c :: p.1, p.2))

/-- Attempt a regex match anchored at the head of the list.  Returns the
captured group text and the remainder after the whole match. -/
def matchInner (l : List Char) : Option (List Char × List Char) :=
  if MK.isPrefixOf l then scanCloseInner (l.drop MK.length) else none

/-- Remainder after an anchored match, if any. -/
def matchAfter (l : List Char) : Option (List Char) :=
  (matchInner l).map (fun p => p.2)

/-- Whether the string contains a prefix occurrence of the marker opener
(Python `'[TOOL_TRIGGER:' in AI_message`). -/
def containsMK : List Char → Bool
  | [] => false
  | c :: rest => MK.isPrefixOf (c :: rest) || containsMK rest

/-- Whether `re.search` finds a complete marker anywhere. -/
def hasMarker : List Char → Bool
  | [] => false
  | c :: rest => (matchAfter (c :: rest)).isSome || hasMarker rest

/-- The first match's captured group (`match.group(1)`), if any. -/
def firstTriggerInner : List Char → Option (List Char)
  | [] => none
  | c :: rest =>
    match matchInner (c :: rest) with
    | some p => some p.1
    | none => firstTriggerInner rest

/-- Fuelled single-pass removal of all leftmost non-overlapping complete
matches (`re.sub(pattern, '', s)`).  The fuel is an upper bound on the input
length; `removeMarkers` instantiates it. -/
def rmF : Nat → List Char → List Char
  | _, [] => []
  | 0, l => l
  | Nat.succ n, c :: rest =>
    match matchAfter (c :: rest) with
    | some rem => rmF n rem
    | none => c :: rmF n rest

/-- `re.sub(r'\[TOOL_TRIGGER:.*?\]', '', s)`. -/
def removeMarkers (l : List Char) : List Char :=
  rmF l.length l

/-! ## The generation paths (src/llmWrappers/abstractLLMWrapper.py,
src/llmWrappers/toolLLMWrapper.py)

State shared by the wrappers beyond `Signals`: the conversation history (we
record the appended assistant entries), the TTS playback and websocket sends,
the `llmState.next_cancelled` flag, and the tool-trigger/tool-result fields
set on `signals`. -/

/-- One element of `signals.tool_results`: either a dict carrying a
`raw_result` (successful execution) or a bare status dict. -/
inductive RawResult where
  | weather (location temperature condition feelsLike humidity : List Char)
  | successResult (result : List Char)
  | plainResult (result : List Char)
  | opaqueDict
  deriving DecidableEq, Repr

inductive ToolResultEntry where
  | raw (r : RawResult)
  | statusMsg (status message : List Char)
  deriving DecidableEq, Repr

structure LLMSt where
  sig : SigState
  history : List (List Char)
  played : List (List Char)
  wsSent : List (List Char)
  newMessage : Bool
  nextCancelled : Bool
  toolExecutionNeeded : Bool
  toolTriggerRequest : List Char
  toolResults : List ToolResultEntry
  deriving DecidableEq

def initLLMSt : LLMSt :=
  { sig := initSig, history := [], played := [], wsSent := [], newMessage := false
    nextCancelled := false, toolExecutionNeeded := false, toolTriggerRequest := []
    toolResults := [] }

/-- `sio_queue.put` for the queue messages that are not property setters. -/
def pushEv (s : SigState) (e : Ev) : SigState :=
  { s with events := s.events ++ [e] }

/-- `AbstractLLMWrapper.is_filtered`: some blacklist word (lower-cased) occurs
among the whitespace-split, lower-cased words of the text. -/
def is_filtered (blacklist : List (List Char)) (text : List Char) : Bool :=
  blacklist.any (fun bad => (pySplitWs (pyLower text)).contains (pyLower bad))

/-- `AbstractLLMWrapper.prompt` for the primary (text/image) paths.
`requestOk` is whether the POST succeeded with HTTP 200; `chunks` are the
streamed content deltas; `cancelAt = some k` means `llmState.next_cancelled`
became true after the first `k` chunks were accumulated (so the remaining
events are skipped and the final cancellation check fires);
`saveToHistory` is the `save_to_history` attribute (`True` for text/image). -/
def promptRun (enabled requestOk : Bool) (blacklist : List (List Char))
    (saveToHistory : Bool) (chunks : List (List Char)) (cancelAt : Option Nat)
    (st : LLMSt) : LLMSt :=
  if enabled = false then st
  else
    let stA := if saveToHistory then { st with sig := setTextThinking st.sig true } else st
    let stB := { stA with newMessage := false, sig := pushEv stA.sig Ev.resetNextMessage }
    if requestOk = false then { stB with sig := setAIThinkingDirect stB.sig false }
    else
      match cancelAt with
      | some k =>
        -- the partial output accumulated before cancellation is discarded
        let _partial := (chunks.take k).flatten
        { stB with nextCancelled := false
                   sig := setAIThinkingDirect (pushEv stB.sig Ev.resetNextMessage) false }
      | none =>
        let msg0 := chunks.flatten
        let trig : Option (List Char) :=
          if saveToHistory ∧ containsMK msg0 = true then firstTriggerInner msg0 else none
        let msg1 := match trig with
          | some _ => pyStrip (removeMarkers msg0)
          | none => msg0
        let stC := match trig with
          | some inner =>
            { stB with toolTriggerRequest := pyStrip inner, toolExecutionNeeded := true }
          | none => stB
        let stD := { stC with sig := setAISpeaking stC.sig true }
        let stE := if saveToHistory then { stD with sig := setTextThinking stD.sig false } else stD
        let filtered := is_filtered blacklist msg1
        let msg2 := if filtered then "Filtered.".data else msg1
        let stF := if filtered then { stE with sig := pushEv stE.sig Ev.resetNextMessage } else stE
        let stG := if saveToHistory then { stF with history := stF.history ++ [msg2] } else stF
        { stG with wsSent := stG.wsSent ++ [msg2], played := stG.played ++ [msg2] }

/-- Outcome of the tool LLM streaming section of
`ToolLLMWrapper._async_prompt`. -/
inductive ToolLLMOutcome where
  | requestExn (e : List Char)
  | cancelled
  | noToolsNeeded
  | calls (results : List ToolResultEntry)
  | noCalls
  deriving DecidableEq

/-- `ToolLLMWrapper._async_prompt`: the tool-invocation generation.  It sets
`tool_llm_thinking`, replaces `signals.tool_results`, may set `new_message`,
and never touches `signals.history`. -/
def asyncPromptRun (enabled : Bool) (out : ToolLLMOutcome) (st : LLMSt) : LLMSt :=
  if enabled = false then st
  else
    let stA := { st with sig := setToolThinking st.sig true, newMessage := false }
    match out with
    | ToolLLMOutcome.requestExn e =>
      { stA with
          toolResults := [ToolResultEntry.statusMsg "error".data
            ("Tool execution error: ".data ++ e)]
          newMessage := true, sig := setToolThinking stA.sig false }
    | ToolLLMOutcome.cancelled =>
      { stA with nextCancelled := false, sig := setToolThinking stA.sig false }
    | ToolLLMOutcome.noToolsNeeded =>
      { stA with
          toolResults := [ToolResultEntry.statusMsg "no_tools_needed".data
            "No external tools were needed for this request".data]
          newMessage := true, sig := setToolThinking stA.sig false }
    | ToolLLMOutcome.calls results =>
      if results = [] then
        { stA with
            toolResults := [ToolResultEntry.statusMsg "execution_failed".data
              "Tool execution failed or returned no results".data]
            newMessage := true, sig := setToolThinking stA.sig false }
      else
        { stA with toolResults := results, newMessage := true
                   sig := setToolThinking stA.sig false }
    | ToolLLMOutcome.noCalls =>
      { stA with
          toolResults := [ToolResultEntry.statusMsg "no_tool_calls".data
            "No tool calls were generated by the LLM".data]
          newMessage := true, sig := setToolThinking stA.sig false }

/-! ## Prompt assembly (src/llmWrappers/abstractLLMWrapper.py 48-150) -/

inductive Role where
  | user
  | assistant
  deriving DecidableEq, Repr

structure Msg where
  role : Role
  content : List Char
  deriving DecidableEq, Repr

def HOST_NAME : List Char := "John".data
def AI_NAME : List Char := "Luna".data

/-- Speaker-name prefixing of a (copied) history entry (lines 103-107). -/
def prefixSpeaker (m : Msg) : Msg :=
  if m.content = [] then m
  else
    match m.role with
    | Role.user => { m with content := HOST_NAME ++ ": ".data ++ m.content ++ "\n".data }
    | Role.assistant => { m with content := AI_NAME ++ ": ".data ++ m.content ++ "\n".data }

structure Injection where
  text : List Char
  priority : Nat
  deriving DecidableEq, Repr

/-- Stable insertion into a priority-sorted list (Python `sorted` is stable). -/
def insertInj (x : Injection) : List Injection → List Injection
  | [] => [x]
  | y :: ys => if x.priority ≤ y.priority then x :: y :: ys else y :: insertInj x ys

def sortInj (l : List Injection) : List Injection :=
  l.foldr insertInj []

/-- `AbstractLLMWrapper.assemble_injections` (with no external modules):
sort by increasing priority and concatenate the texts. -/
def assemble_injections (injs : List Injection) : List Char :=
  ((sortInj injs).map Injection.text).flatten

/-- `AbstractLLMWrapper._process_tool_results_naturally`: turn
`signals.tool_results` into a context narrative, or the fixed apology
instruction if any entry is a failure status, or nothing. -/
def processTRAux : List ToolResultEntry → List (List Char) → Option (List Char)
  | [], parts =>
    if parts = [] then none
    else some ("\nRelevant information found:\n".data
      ++ (parts.intersperse "\n".data).flatten
      ++ "\nUse this information to provide an accurate response.\n".data)
  | ToolResultEntry.raw r :: rest, parts =>
    match r with
    | RawResult.weather location temperature condition feelsLike humidity =>
      processTRAux rest (parts ++ ["Current weather in ".data ++ location ++ ": ".data
        ++ temperature ++ ", ".data ++ condition ++ ", feels like ".data ++ feelsLike
        ++ ", humidity ".data ++ humidity ++ ".".data])
    | RawResult.successResult res =>
      processTRAux rest (parts ++ ["Retrieved information: ".data ++ res])
    | RawResult.plainResult res =>
      processTRAux rest (parts ++ ["Information found: ".data ++ res])
    | RawResult.opaqueDict => processTRAux rest parts
  | ToolResultEntry.statusMsg status _ :: rest, parts =>
    if status = "no_tools_needed".data ∨ status = "execution_failed".data
       ∨ status = "no_tool_calls".data ∨ status = "error".data
    then some ("\nThe external lookup couldn\x27t be completed right now. Apologize briefly and provide a helpful alternative response based on your knowledge.\n".data)
    else processTRAux rest parts

def processToolResultsNaturally (results : List ToolResultEntry) : Option (List Char) :=
  processTRAux results []

/-- The trailing `generation_prompt` appended after the injections. -/
def generationPrompt : List Char := AI_NAME ++ ": ".data

/-- One iteration's full prompt: system prompt at priority 10, the tool
narrative (if any) at priority 30, the chat section at priority 100, then the
generation prompt. -/
def buildFullPrompt (sysPrompt : List Char) (toolInjs : List Injection)
    (msgs : List Msg) : List Char :=
  assemble_injections (Injection.mk sysPrompt 10 :: toolInjs
      ++ [Injection.mk ((msgs.map Msg.content).flatten) 100])
    ++ generationPrompt

def fatalOversize : List Char := "Prompt too long even with no messages".data

/-- The retry loop of `generate_prompt` (lines 109-150).  `tokenLen` abstracts
`len(self.tokenizer.encode(...))`.  The token estimate must stay below 90% of
the context size, i.e. `10 * tokens < 9 * CONTEXT_SIZE`.  `signals.tool_results`
is cleared inside the first iteration, so later iterations carry no tool
injection.  Returns the prompt or the fatal error, with the number of removed
oldest entries. -/
def shrinkLoop (tokenLen : List Char → Nat) (ctxSize : Nat) (sysPrompt : List Char)
    (toolInjs : List Injection) : List Msg → Except (List Char) (List Char) × Nat
  | [] =>
    let fullPrompt := buildFullPrompt sysPrompt toolInjs []
    if 10 * tokenLen fullPrompt < 9 * ctxSize then (Except.ok fullPrompt, 0)
    else (Except.error fatalOversize, 0)
  | m :: rest =>
    let fullPrompt := buildFullPrompt sysPrompt toolInjs (m :: rest)
    if 10 * tokenLen fullPrompt < 9 * ctxSize then (Except.ok fullPrompt, 0)
    else
      let r := shrinkLoop tokenLen ctxSize sysPrompt [] rest
      (r.1, r.2 + 1)

structure GenPromptOut where
  result : Except (List Char) (List Char)
  removals : Nat
  history : List Msg
  tool_results : List ToolResultEntry

/-- The tool-narrative injections of the first iteration (present only when
`signals.tool_results` is non-empty and yields a narrative; priority 30 sits
between the system prompt and the chat history). -/
def toolInjectionsOf (toolResults : List ToolResultEntry) : List Injection :=
  if toolResults ≠ [] then
    match processToolResultsNaturally toolResults with
    | some t => [Injection.mk t 30]
    | none => []
  else []

/-- `AbstractLLMWrapper.generate_prompt`: deep-copies the history, prefixes
speakers, and runs the shrink loop.  The stored history is returned untouched;
`signals.tool_results` is cleared. -/
def generate_prompt (tokenLen : List Char → Nat) (ctxSize : Nat)
    (sysPrompt : List Char) (history : List Msg)
    (toolResults : List ToolResultEntry) : GenPromptOut :=
  let messages := history.map prefixSpeaker
  let r := shrinkLoop tokenLen ctxSize sysPrompt (toolInjectionsOf toolResults) messages
  { result := r.1, removals := r.2, history := history, tool_results := [] }

/-! ## Tool base (src/tools/base/tool_base.py) -/

inductive ToolType where
  | static
  | dynamic
  deriving DecidableEq, Repr

inductive ToolStatus where
  | available
  | loading
  | executing
  | error
  | disabled
  deriving DecidableEq, Repr

structure ExecutionStatus where
  is_running : Bool
  progress : ℚ
  current_step : Option (List Char)
  start_time : Option ℚ
  estimated_completion : Option ℚ
  user_request : Option (List Char)
  deriving DecidableEq

structure ToolMetadata where
  name : List Char
  ttype : ToolType
  status : ToolStatus
  usage_count : Nat
  error_count : Nat
  average_response_time : ℚ
  last_used : Option ℚ
  execution_status : ExecutionStatus
  deriving DecidableEq

structure BaseToolState where
  metadata : ToolMetadata
  performance_history : List ℚ
  deriving DecidableEq

/-- Result of `execute_with_monitoring`: either the wrapped tool's own result
dict or the structured error payload built in the `except` branch. -/
inductive ExecPayload (α : Type) where
  | ok (result : α)
  | errorPayload (error : List Char) (tool_name : List Char) (execution_time : ℚ)

/-- `BaseTool.execute_with_monitoring`.  `startTime` is `time.time()` at
entry, `execTime` the elapsed time when the wrapped `execute` returns or
raises, and `outcome` the wrapped call's result (`Except` models a raised
exception).  The progress-callback hook is not installed in this codebase. -/
def execute_with_monitoring (st : BaseToolState) (userRequest : List Char)
    (startTime execTime : ℚ) (outcome : Except (List Char) α) :
    BaseToolState × ExecPayload α :=
  let m0 := st.metadata
  let est := if 0 < m0.average_response_time
             then startTime + m0.average_response_time else startTime + 3
  let m1 := { m0 with
    usage_count := m0.usage_count + 1
    last_used := some startTime
    status := ToolStatus.executing
    execution_status :=
      { is_running := true, progress := 1/5
        current_step := some (m0.name ++ " 실행 중...".data)
        start_time := some startTime, estimated_completion := some est
        user_request := some userRequest } }
  match outcome with
  | Except.ok res =>
    let hist1 := st.performance_history ++ [execTime]
    let avg := hist1.sum / (hist1.length : ℚ)
    let hist2 := if 50 < hist1.length then hist1.drop (hist1.length - 50) else hist1
    ({ metadata := { m1 with
        average_response_time := avg
        status := ToolStatus.available
        execution_status := { m1.execution_status with
          progress := 1, current_step := some "완료".data, is_running := false } }
       performance_history := hist2 },
     ExecPayload.ok res)
  | Except.error e =>
    ({ metadata := { m1 with
        error_count := m1.error_count + 1
        status := ToolStatus.error
        execution_status := { m1.execution_status with
          is_running := false, progress := 0
          current_step := some ("오류: ".data ++ e) } }
       performance_history := st.performance_history },
     ExecPayload.errorPayload e m1.name execTime)

/-! ## Dynamic tool selection (src/tools/dynamic_tool_manager.py) -/

inductive SelectionStrategy where
  | keywordOnly
  | semanticOnly
  | hybrid
  | smart
  deriving DecidableEq, Repr

structure ToolSelectionContext where
  user_input : List Char
  conversation_history : List Msg
  max_tools : Nat
  strategy : SelectionStrategy
  prefer_static : Bool

/-- The registry's `tools` mapping, as an association list with unique
names.  `get_tool` is name lookup. -/
def getTool (reg : List ToolMetadata) (name : List Char) : Option ToolMetadata :=
  reg.find? (fun t => t.name == name)

/-- `DynamicToolManager.tool_categories`: category name, keywords, tools. -/
def toolCategories : List (List Char × List (List Char) × List (List Char)) :=
  [("computation".data,
    ["math".data, "calculate".data, "computation".data, "arithmetic".data,
     "add".data, "subtract".data, "multiply".data, "divide".data,
     "equation".data, "solve".data],
    ["calculate_math".data]),
   ("information".data,
    ["weather".data, "temperature".data, "climate".data, "forecast".data,
     "rain".data, "snow".data, "sunny".data, "cloudy".data, "wind".data],
    ["get_weather".data]),
   ("search".data,
    ["search".data, "find".data, "look up".data, "information".data,
     "news".data, "web".data, "query".data, "discover".data],
    ["web_search".data]),
   ("entertainment".data,
    ["youtube".data, "video".data, "play".data, "watch".data],
    ["play_youtube_video".data])]

/-- Set-insertion used to model Python `set.add` on tool objects. -/
def addUnique (t : ToolMetadata) (l : List ToolMetadata) : List ToolMetadata :=
  if t ∈ l then l else l ++ [t]

/-- `DynamicToolManager._get_default_tools`. -/
def defaultTools (reg : List ToolMetadata) : List ToolMetadata :=
  (["web_search".data]).foldl
    (fun acc name =>
      match getTool reg name with
      | some t => if t.status = ToolStatus.available then acc ++ [t] else acc
      | none => acc)
    []

/-- `DynamicToolManager._keyword_selection`: substring-match every category
keyword against the lower-cased input; collect the matching categories'
available tools as a set; fall back to the default tools if empty. -/
def keywordSelection (reg : List ToolMetadata) (ctx : ToolSelectionContext) :
    List ToolMetadata :=
  let lowerInput := pyLower ctx.user_input
  let matched := toolCategories.foldl
    (fun acc cat =>
      cat.2.1.foldl
        (fun acc2 kw =>
          if containsSub kw lowerInput then
            cat.2.2.foldl
              (fun acc3 tname =>
                match getTool reg tname with
                | some t =>
                  if t.status = ToolStatus.available then addUnique t acc3 else acc3
                | none => acc3)
              acc2
          else acc2)
        acc)
    []
  if matched = [] then defaultTools reg else matched

/-- `DynamicToolManager._semantic_selection`.  The ChromaDB collection is
abstracted as a query function from input text and result count to the stored
`tool_name` metadata entries; `none` models an unavailable collection, which
falls back to keyword selection. -/
def semanticSelection (collection : Option (List Char → Nat → List (List Char)))
    (reg : List ToolMetadata) (ctx : ToolSelectionContext) : List ToolMetadata :=
  match collection with
  | none => keywordSelection reg ctx
  | some q =>
    (q ctx.user_input (ctx.max_tools * 2)).foldl
      (fun acc tname =>
        match getTool reg tname with
        | some t => if t.status = ToolStatus.available then acc ++ [t] else acc
        | none => acc)
      []

/-- `DynamicToolManager._hybrid_selection`: keyword results first, then
semantic results not already present, up to `max_tools`. -/
def hybridSelection (collection : Option (List Char → Nat → List (List Char)))
    (reg : List ToolMetadata) (ctx : ToolSelectionContext) : List ToolMetadata :=
  let keywordTools := keywordSelection reg ctx
  let semanticTools := (semanticSelection collection reg ctx).foldl
    (fun acc t => addUnique t acc) []
  semanticTools.foldl
    (fun acc t =>
      if t ∈ keywordTools ∨ ¬ acc.length < ctx.max_tools then acc else acc ++ [t])
    keywordTools

/-- `DynamicToolManager._smart_selection` is currently hybrid. -/
def smartSelection (collection : Option (List Char → Nat → List (List Char)))
    (reg : List ToolMetadata) (ctx : ToolSelectionContext) : List ToolMetadata :=
  hybridSelection collection reg ctx

/-- `DynamicToolManager._prioritize_static_tools`. -/
def prioritizeStatic (tools : List ToolMetadata) : List ToolMetadata :=
  tools.filter (fun t => t.ttype = ToolType.static)
    ++ tools.filter (fun t => t.ttype = ToolType.dynamic)

/-- `DynamicToolManager.select_relevant_tools` (the returned tool list; the
performance-metric bookkeeping is wall-clock state with no effect on the
result). -/
def selectRelevantTools (collection : Option (List Char → Nat → List (List Char)))
    (reg : List ToolMetadata) (ctx : ToolSelectionContext) : List ToolMetadata :=
  let selected := match ctx.strategy with
    | SelectionStrategy.keywordOnly => keywordSelection reg ctx
    | SelectionStrategy.semanticOnly => semanticSelection collection reg ctx
    | SelectionStrategy.hybrid => hybridSelection collection reg ctx
    | SelectionStrategy.smart => smartSelection collection reg ctx
  let selected2 := if ctx.prefer_static then prioritizeStatic selected else selected
  selected2.take ctx.max_tools

/-! ## Failure handler (src/tools/failure_handler.py) -/

inductive FailureType where
  | executionError
  | networkError
  | invalidParameters
  | serviceUnavailable
  | timeout
  | unknown
  deriving DecidableEq, Repr

def failureTypeValue : FailureType → List Char
  | FailureType.executionError => "execution_error".data
  | FailureType.networkError => "network_error".data
  | FailureType.invalidParameters => "invalid_parameters".data
  | FailureType.serviceUnavailable => "service_unavailable".data
  | FailureType.timeout => "timeout".data
  | FailureType.unknown => "unknown".data

/-- The `error_info` dict: optional `exception` and `error_type` entries
(`str()` of a missing entry defaults to the empty string). -/
structure ErrorInfo where
  exception : Option (List Char)
  error_type : Option (List Char)
  deriving DecidableEq

/-- `ToolFailureHandler._analyze_failure_type`: substring checks on the
lower-cased error message, in source order.  (The `error_type` entry is read
in the source but never used.) -/
def analyzeFailureType (info : ErrorInfo) : FailureType :=
  let errorMsg := pyLower (info.exception.getD [])
  let _errorType := pyLower (info.error_type.getD [])
  if containsSub "network".data errorMsg || containsSub "connection".data errorMsg
  then FailureType.networkError
  else if containsSub "timeout".data errorMsg || containsSub "timed out".data errorMsg
  then FailureType.timeout
  else if containsSub "parameter".data errorMsg || containsSub "invalid".data errorMsg
  then FailureType.invalidParameters
  else if containsSub "service".data errorMsg || containsSub "unavailable".data errorMsg
  then FailureType.serviceUnavailable
  else if errorMsg ≠ [] ∧ errorMsg ≠ "unknown error".data
  then FailureType.executionError
  else FailureType.unknown

structure FailureResponse where
  success : Bool
  fallback_response : List Char
  tool_name : List Char
  failure_type : List Char
  user_request : List Char
  error_summary : List Char
  suggested_action : List Char
  luna_mood : List Char
  deriving DecidableEq

/-- `ToolFailureHandler._get_suggested_action`. -/
def getSuggestedAction (toolName : List Char) (_ft : FailureType) : List Char :=
  if toolName = "play_youtube_video".data
  then "Try searching YouTube directly in your browser".data
  else if toolName = "get_weather".data
  then "Check your weather app or look outside".data
  else if toolName = "calculate_math".data
  then "Use a calculator app or device".data
  else if toolName = "search_web".data
  then "Try Google or your preferred search engine".data
  else "Try handling this manually or retry later".data

/-- `ToolFailureHandler._get_luna_mood`. -/
def getLunaMood : FailureType → List Char
  | FailureType.executionError => "apologetic".data
  | FailureType.networkError => "frustrated".data
  | FailureType.invalidParameters => "confused".data
  | FailureType.serviceUnavailable => "disappointed".data
  | FailureType.timeout => "impatient".data
  | FailureType.unknown => "puzzled".data

/-- `ToolFailureHandler._get_emergency_fallback`. -/
def emergencyFallback (toolName userRequest : List Char) : FailureResponse :=
  { success := false
    fallback_response :=
      "Welp, that didn\x27t go as planned - you\x27ll have to handle this one yourself!".data
    tool_name := toolName
    failure_type := "emergency_fallback".data
    user_request := userRequest
    error_summary := "Multiple failure handling errors".data
    suggested_action := "Try handling this manually".data
    luna_mood := "sheepish".data }

/-- `ToolFailureHandler.handle_failure`.  The whole body is wrapped in
try/except; the two sub-computations that can raise — failure-type analysis
and (randomized) message selection — are passed as `Except`-valued arguments
so the exception path is explicit.  On any raise, the fixed emergency
fallback is returned. -/
def handleFailure (classify : ErrorInfo → Except (List Char) FailureType)
    (selectMessage : List Char → FailureType → Except (List Char) (List Char))
    (toolName : List Char) (info : ErrorInfo) (userRequest : List Char) :
    FailureResponse :=
  match classify info with
  | Except.error _ => emergencyFallback toolName userRequest
  | Except.ok ft =>
    match selectMessage toolName ft with
    | Except.error _ => emergencyFallback toolName userRequest
    | Except.ok msg =>
      { success := false
        fallback_response := msg
        tool_name := toolName
        failure_type := failureTypeValue ft
        user_request := userRequest
        error_summary := info.exception.getD "Unknown error".data
        suggested_action := getSuggestedAction toolName ft
        luna_mood := getLunaMood ft }

/-! ## Math tool (src/tools/dynamic/math_tool.py) -/

def dangerousKeywords : List (List Char) :=
  ["import".data, "exec".data, "eval".data, "open".data, "file".data,
   "input".data, "raw_input".data, "__".data, "getattr".data, "setattr".data,
   "delattr".data, "globals".data, "locals".data, "vars".data, "dir".data,
   "help".data, "reload".data, "compile".data]

def allowedChars : List Char :=
  "0123456789+-*/().= abcdefghijklmnopqrstuvwxyz,".data

/-- `MathTool._clean_expression`. -/
def cleanExpression (expr : List Char) : List Char :=
  let e1 := pyStrip expr
  let e2 := if "calculate".data.isPrefixOf (pyLower e1) then pyStrip (e1.drop 9) else e1
  let e3 := if "=".data.isPrefixOf e2 then pyStrip (e2.drop 1) else e2
  let e4 := replaceSub "ร".data "*".data e3
  let e5 := replaceSub "รท".data "/".data e4
  replaceSub "^".data "**".data e5

/-- `MathTool._is_safe_expression`: no dangerous keyword in the lower-cased
expression, and every character (lower-cased) in the allowed set. -/
def isSafeExpression (expr : List Char) : Bool :=
  let lower := pyLower expr
  if dangerousKeywords.any (fun kw => containsSub kw lower) then false
  else if ¬ expr.all (fun c => c.toLower ∈ allowedChars) then false
  else true

/-- The dict returned by `MathTool.execute`. -/
structure MathResult where
  status : List Char
  result : Option ℚ
  error : Option (List Char)
  expression : List Char
  cleaned_expression : Option (List Char)
  deriving DecidableEq

/-- `MathTool.execute`.  `evalFn` abstracts the restricted Python `eval` on
the cleaned expression; an `Except.error` models an exception, which the
enclosing try/except converts to an error dict. -/
def mathExecute (evalFn : List Char → Except (List Char) ℚ)
    (expression : List Char) : MathResult :=
  let cleaned := cleanExpression expression
  if isSafeExpression cleaned = false then
    { status := "error".data, result := none
      error := some "Expression contains unsafe operations".data
      expression := expression, cleaned_expression := none }
  else
    match evalFn cleaned with
    | Except.ok v =>
      { status := "success".data, result := some v, error := none
        expression := expression, cleaned_expression := some cleaned }
    | Except.error e =>
      { status := "error".data, result := none, error := some e
        expression := expression, cleaned_expression := none }

/-!
# Theorems

Supporting lemmas first, then one theorem per specification claim.
-/

/-! ## Scheduler tool-dispatch lemmas -/

lemma toolTick_outstanding_le (hasToolLLM : Bool) (s : ToolSched) (i : ToolTickIn)
    (h : s.outstanding ≤ 1) : (toolTick hasToolLLM s i).1.outstanding ≤ 1 := by
  unfold toolTick
  by_cases ht : i.trigger <;> by_cases hd : i.futureDone <;>
    simp [ht, hd] <;> repeat first | omega | (split <;> simp_all)

lemma runToolTicks_outstanding_le (hasToolLLM : Bool) (inputs : List ToolTickIn)
    (s : ToolSched) (h : s.outstanding ≤ 1) :
    (runToolTicks hasToolLLM s inputs).outstanding ≤ 1 := by
  induction inputs generalizing s with
  | nil => exact h
  | cons i is ih => exact ih _ (toolTick_outstanding_le hasToolLLM s i h)

/-! ## Combined-thinking lemmas -/

lemma combinedInv_updateCombined (s : SigState) :
    combinedInv (updateCombinedThinking s) := by
  unfold updateCombinedThinking combinedInv
  dsimp only
  split <;> simp_all

lemma countAIEvents_append (a b : List Ev) :
    countAIEvents (a ++ b) = countAIEvents a + countAIEvents b := by
  unfold countAIEvents
  rw [List.filter_append, List.length_append]

lemma combinedInv_applySigOp (s : SigState) (op : SigOp)
    (hs : combinedInv s) (hop : op.notDirect = true) :
    combinedInv (applySigOp s op) := by
  cases op with
  | text b => exact combinedInv_updateCombined _
  | tool b => exact combinedInv_updateCombined _
  | image b => exact combinedInv_updateCombined _
  | aiDirect b => simp [SigOp.notDirect] at hop
  | human b => simpa [applySigOp, setHumanSpeaking, combinedInv] using hs
  | speak b => simpa [applySigOp, setAISpeaking, combinedInv] using hs

lemma combinedInv_foldl (ops : List SigOp) (s : SigState)
    (hs : combinedInv s) (hops : ∀ op ∈ ops, op.notDirect = true) :
    combinedInv (ops.foldl applySigOp s) := by
  induction ops generalizing s with
  | nil => exact hs
  | cons op rest ih =>
    exact ih _ (combinedInv_applySigOp s op hs (hops op (by simp)))
      (fun o ho => hops o (by simp [ho]))

/-! ## Claim C1 -/

/-- C1 (counterexample).  The claim states that a tool trigger received while
a tool future is outstanding is dropped and does not cause a tool pass after
the first one resolves.  In the run below, tick 1 starts a pass; tick 2
receives a second trigger while the pass is outstanding (no pass starts, but
`tool_execution_needed` stays set because the prompter clears it only when a
pass starts); tick 3 merely observes the first future completing — yet a
second pass starts.  Under the claim the per-tick start flags would be
`[true, false, false]`; the code yields `[true, false, true]`. -/
theorem C1_second_trigger_not_dropped :
    runToolStarts true initToolSched
      [ToolTickIn.mk true false, ToolTickIn.mk true false, ToolTickIn.mk false true]
      = [true, false, true] := by decide

/-- C1 (amended): single-flight holds — along any tick sequence at most one
tool-invocation pass is outstanding, and a tick starts a pass only via the
guard `pending_tool_future is None` — but a trigger received while a pass is
outstanding is deferred, not dropped: the flag survives the tick and the
first tick that observes the future completed starts exactly one new pass. -/
theorem C1_single_flight_deferred_trigger :
    (∀ (hasToolLLM : Bool) (inputs : List ToolTickIn),
      (runToolTicks hasToolLLM initToolSched inputs).outstanding ≤ 1)
    ∧ (∀ s : ToolSched, s.outstanding = 1 → s.need = true →
        (toolTick true s (ToolTickIn.mk false false)).2 = false
        ∧ (toolTick true s (ToolTickIn.mk false false)).1.need = true
        ∧ (toolTick true s (ToolTickIn.mk false true)).2 = true
        ∧ (toolTick true s (ToolTickIn.mk false true)).1.outstanding = 1) := by
  constructor
  · intro hasToolLLM inputs
    exact runToolTicks_outstanding_le hasToolLLM inputs _ (by simp [initToolSched])
  · intro s h1 h2
    obtain ⟨o, n⟩ := s
    simp_all [toolTick]

theorem C1_single_flight_deferred_trigger_witness :
    (runToolTicks true initToolSched [ToolTickIn.mk true false]).outstanding ≤ 1
    ∧ (toolTick true (ToolSched.mk 1 true) (ToolTickIn.mk false true)).2 = true :=
  ⟨C1_single_flight_deferred_trigger.1 true [ToolTickIn.mk true false],
   ((C1_single_flight_deferred_trigger.2 (ToolSched.mk 1 true) rfl rfl).2.2).1⟩

/-! ## Claim C2 -/

/-- C2 (counterexample).  The mutation interface includes the legacy direct
`AI_thinking` setter (used by the generation paths on error/cancellation).
Setting `text_llm_thinking := true` and then calling the direct setter with
`false` — exactly what a cancelled generation does — leaves a reachable state
where the combined flag is false while the OR of the individual flags is
true.  Moreover the direct setter enqueues an `AI_thinking` event even when
the derived value does not change (here: false to false from the initial
state), violating the emit-iff-changed half as well. -/
theorem C2_direct_setter_breaks_invariant :
    ¬ combinedInv (runSigOps [SigOp.text true, SigOp.aiDirect false])
    ∧ (runSigOps [SigOp.aiDirect false]).events = [Ev.aiThinking false] := by
  constructor
  · decide
  · decide

/-- C2 (amended): for every state reachable through the mutation interface
WITHOUT the legacy direct `AI_thinking` setter, the combined flag equals the
OR of the three per-generator flags; and `_update_combined_thinking` enqueues
an `AI_thinking` event if and only if the derived value changed.  (The direct
setter, kept for backward compatibility and used by the generation paths on
error/cancellation, emits unconditionally and can break the equality.) -/
theorem C2_combined_thinking_invariant :
    (∀ ops : List SigOp, (∀ op ∈ ops, op.notDirect = true) →
      combinedInv (runSigOps ops))
    ∧ (∀ s : SigState,
        countAIEvents (updateCombinedThinking s).events
          = countAIEvents s.events
            + (if derivedThinking s = s.AI_thinking then 0 else 1)) := by
  constructor
  · intro ops hops
    exact combinedInv_foldl ops initSig (by decide) hops
  · intro s
    unfold updateCombinedThinking derivedThinking
    dsimp only
    split
    · simp_all
    · simp_all [countAIEvents_append]
      rfl

theorem C2_combined_thinking_invariant_witness :
    combinedInv (runSigOps [SigOp.text true, SigOp.tool true, SigOp.text false])
    ∧ countAIEvents (updateCombinedThinking initSig).events
        = countAIEvents initSig.events
          + (if derivedThinking initSig = initSig.AI_thinking then 0 else 1) :=
  ⟨C2_combined_thinking_invariant.1 [SigOp.text true, SigOp.tool true, SigOp.text false]
     (by decide),
   C2_combined_thinking_invariant.2 initSig⟩

/-! ## Claim C4 -/

/-- C4: `prompt_now` is truthy only when both readiness flags are set and all
three activity flags are clear; and whenever one of the activity flags is
set, the scheduler tick does not start a primary generation. -/
theorem C4_scheduler_mutual_exclusion (v : PromptNowView) :
    (primaryGenerationStarts v = true →
      v.stt_ready = true ∧ v.tts_ready = true ∧ v.human_speaking = false
      ∧ v.AI_thinking = false ∧ v.AI_speaking = false)
    ∧ ((v.human_speaking = true ∨ v.AI_thinking = true ∨ v.AI_speaking = true) →
        primaryGenerationStarts v = false) := by
  unfold primaryGenerationStarts prompt_now pyTruthy
  constructor
  · intro h
    split_ifs at h <;> simp_all
  · intro h
    split_ifs <;> simp_all

theorem C4_scheduler_mutual_exclusion_witness :
    ((PromptNowView.mk true true false false false true 0 0 60).stt_ready = true
      ∧ (PromptNowView.mk true true false false false true 0 0 60).tts_ready = true
      ∧ (PromptNowView.mk true true false false false true 0 0 60).human_speaking = false
      ∧ (PromptNowView.mk true true false false false true 0 0 60).AI_thinking = false
      ∧ (PromptNowView.mk true true false false false true 0 0 60).AI_speaking = false)
    ∧ primaryGenerationStarts (PromptNowView.mk true true false true false true 3 0 60) = false :=
  ⟨(C4_scheduler_mutual_exclusion (PromptNowView.mk true true false false false true 0 0 60)).1
     (by decide),
   (C4_scheduler_mutual_exclusion (PromptNowView.mk true true false true false true 3 0 60)).2
     (by decide)⟩

/-! ## Claim C7 -/

/-- C7: when the vector-index collection is unavailable
(`self.collection is None`), `select_relevant_tools` with strategy
`SEMANTIC_ONLY` returns the same result set as with strategy `KEYWORD_ONLY`
on the same selection context (it degrades to the keyword path before the
shared static-priority and truncation post-processing). -/
theorem C7_semantic_degrades_to_keyword
    (reg : List ToolMetadata) (ctx : ToolSelectionContext) :
    selectRelevantTools none reg { ctx with strategy := SelectionStrategy.semanticOnly }
      = selectRelevantTools none reg { ctx with strategy := SelectionStrategy.keywordOnly } := by
  simp [selectRelevantTools, semanticSelection, keywordSelection]

/-! ## Claim C9 -/

/-- C9: the failure category is a deterministic function of the error message
alone (the `error_type` entry is ignored), decided by substring inspection in
the fixed priority order network → timeout → invalid-parameters →
service-unavailable → nonempty-message-else-execution-error → unknown; and if
classification or message selection raises, `handle_failure` returns the
single fixed emergency-fallback response. -/
theorem C9_failure_classification :
    (∀ (e t1 t2 : Option (List Char)),
      analyzeFailureType (ErrorInfo.mk e t1) = analyzeFailureType (ErrorInfo.mk e t2))
    ∧ (∀ info : ErrorInfo,
        ((containsSub "network".data (pyLower (info.exception.getD []))
            || containsSub "connection".data (pyLower (info.exception.getD []))) = true →
          analyzeFailureType info = FailureType.networkError)
        ∧ ((containsSub "network".data (pyLower (info.exception.getD []))
            || containsSub "connection".data (pyLower (info.exception.getD []))) = false →
           (containsSub "timeout".data (pyLower (info.exception.getD []))
            || containsSub "timed out".data (pyLower (info.exception.getD []))) = true →
          analyzeFailureType info = FailureType.timeout)
        ∧ ((containsSub "network".data (pyLower (info.exception.getD []))
            || containsSub "connection".data (pyLower (info.exception.getD []))) = false →
           (containsSub "timeout".data (pyLower (info.exception.getD []))
            || containsSub "timed out".data (pyLower (info.exception.getD []))) = false →
           (containsSub "parameter".data (pyLower (info.exception.getD []))
            || containsSub "invalid".data (pyLower (info.exception.getD []))) = true →
          analyzeFailureType info = FailureType.invalidParameters)
        ∧ ((containsSub "network".data (pyLower (info.exception.getD []))
            || containsSub "connection".data (pyLower (info.exception.getD []))) = false →
           (containsSub "timeout".data (pyLower (info.exception.getD []))
            || containsSub "timed out".data (pyLower (info.exception.getD []))) = false →
           (containsSub "parameter".data (pyLower (info.exception.getD []))
            || containsSub "invalid".data (pyLower (info.exception.getD []))) = false →
           (containsSub "service".data (pyLower (info.exception.getD []))
            || containsSub "unavailable".data (pyLower (info.exception.getD []))) = true →
          analyzeFailureType info = FailureType.serviceUnavailable)
        ∧ ((containsSub "network".data (pyLower (info.exception.getD []))
            || containsSub "connection".data (pyLower (info.exception.getD []))) = false →
           (containsSub "timeout".data (pyLower (info.exception.getD []))
            || containsSub "timed out".data (pyLower (info.exception.getD []))) = false →
           (containsSub "parameter".data (pyLower (info.exception.getD []))
            || containsSub "invalid".data (pyLower (info.exception.getD []))) = false →
           (containsSub "service".data (pyLower (info.exception.getD []))
            || containsSub "unavailable".data (pyLower (info.exception.getD []))) = false →
           pyLower (info.exception.getD []) ≠ [] →
           pyLower (info.exception.getD []) ≠ "unknown error".data →
          analyzeFailureType info = FailureType.executionError)
        ∧ ((containsSub "network".data (pyLower (info.exception.getD []))
            || containsSub "connection".data (pyLower (info.exception.getD []))) = false →
           (containsSub "timeout".data (pyLower (info.exception.getD []))
            || containsSub "timed out".data (pyLower (info.exception.getD []))) = false →
           (containsSub "parameter".data (pyLower (info.exception.getD []))
            || containsSub "invalid".data (pyLower (info.exception.getD []))) = false →
           (containsSub "service".data (pyLower (info.exception.getD []))
            || containsSub "unavailable".data (pyLower (info.exception.getD []))) = false →
           (pyLower (info.exception.getD []) = []
            ∨ pyLower (info.exception.getD []) = "unknown error".data) →
          analyzeFailureType info = FailureType.unknown))
    ∧ (∀ (classify : ErrorInfo → Except (List Char) FailureType)
         (selectMessage : List Char → FailureType → Except (List Char) (List Char))
         (toolName : List Char) (info : ErrorInfo) (userRequest err : List Char),
        classify info = Except.error err →
        handleFailure classify selectMessage toolName info userRequest
          = emergencyFallback toolName userRequest)
    ∧ (∀ (classify : ErrorInfo → Except (List Char) FailureType)
         (selectMessage : List Char → FailureType → Except (List Char) (List Char))
         (toolName : List Char) (info : ErrorInfo) (userRequest : List Char)
         (ft : FailureType) (err : List Char),
        classify info = Except.ok ft →
        selectMessage toolName ft = Except.error err →
        handleFailure classify selectMessage toolName info userRequest
          = emergencyFallback toolName userRequest) := by
  refine ⟨fun e t1 t2 => rfl, ?_, ?_, ?_⟩
  · intro info
    refine ⟨?_, ?_, ?_, ?_, ?_, ?_⟩ <;>
      · intros
        unfold analyzeFailureType
        dsimp only
        split_ifs <;> simp_all
  · intro classify selectMessage toolName info userRequest err h
    simp [handleFailure, h]
  · intro classify selectMessage toolName info userRequest ft err h1 h2
    simp [handleFailure, h1, h2]

theorem C9_failure_classification_witness :
    analyzeFailureType (ErrorInfo.mk (some "Connection refused".data) none)
      = FailureType.networkError
    ∧ handleFailure (fun _ => Except.error "boom".data)
        (fun _ _ => Except.ok "msg".data) "get_weather".data
        (ErrorInfo.mk none none) []
      = emergencyFallback "get_weather".data []
    ∧ handleFailure (fun _ => Except.ok FailureType.timeout)
        (fun _ _ => Except.error "empty choice".data) "get_weather".data
        (ErrorInfo.mk none none) []
      = emergencyFallback "get_weather".data [] :=
  ⟨(C9_failure_classification.2.1 (ErrorInfo.mk (some "Connection refused".data) none)).1
     (by decide),
   C9_failure_classification.2.2.1 (fun _ => Except.error "boom".data)
     (fun _ _ => Except.ok "msg".data) "get_weather".data (ErrorInfo.mk none none) [] "boom".data rfl,
   C9_failure_classification.2.2.2 (fun _ => Except.ok FailureType.timeout)
     (fun _ _ => Except.error "empty choice".data) "get_weather".data (ErrorInfo.mk none none) []
     FailureType.timeout "empty choice".data rfl rfl⟩

/-! ## Claim C10 -/

/-- C10 (counterexample).  The claim states that an expression containing any
character outside the allowed set is never evaluated and yields an error
dict.  But the safety check runs on the CLEANED expression: `'2^3'` contains
the disallowed character `^`, yet cleaning rewrites it to `2**3`, which
passes the check and is evaluated, producing a success dict. -/
theorem C10_caret_expression_evaluated :
    ¬ ("2^3".data.all (fun c => c.toLower ∈ allowedChars) = true)
    ∧ (mathExecute (fun _ => Except.ok 8) "2^3".data).status = "success".data := by
  exact ⟨by decide, by decide⟩

/-- C10 (amended): `MathTool.execute` is total — for every evaluator behavior
and every input it returns a dict whose status is `success` or `error` — and
the safety check guards the CLEANED expression: whenever the cleaned
expression contains a blocked keyword or a disallowed character, the
evaluator is never invoked (the result does not depend on it) and the result
is an error dict echoing the unchanged original expression. -/
theorem C10_math_totality_and_guard :
    (∀ (f : List Char → Except (List Char) ℚ) (expr : List Char),
      (mathExecute f expr).status = "success".data
      ∨ (mathExecute f expr).status = "error".data)
    ∧ (∀ (f g : List Char → Except (List Char) ℚ) (expr : List Char),
        isSafeExpression (cleanExpression expr) = false →
        mathExecute f expr = mathExecute g expr
        ∧ (mathExecute f expr).status = "error".data
        ∧ (mathExecute f expr).expression = expr) := by
  constructor
  · intro f expr
    unfold mathExecute
    dsimp only
    split
    · right; rfl
    · split
      · left; rfl
      · right; rfl
  · intro f g expr h
    unfold mathExecute
    simp [h]

theorem C10_math_totality_and_guard_witness :
    ((mathExecute (fun _ => Except.ok 0) "import os".data).status = "success".data
      ∨ (mathExecute (fun _ => Except.ok 0) "import os".data).status = "error".data)
    ∧ ((mathExecute (fun _ => Except.ok 0) "import os".data
          = mathExecute (fun _ => Except.ok 1) "import os".data)
       ∧ (mathExecute (fun _ => Except.ok 0) "import os".data).status = "error".data
       ∧ (mathExecute (fun _ => Except.ok 0) "import os".data).expression = "import os".data) :=
  ⟨C10_math_totality_and_guard.1 (fun _ => Except.ok 0) "import os".data,
   C10_math_totality_and_guard.2 (fun _ => Except.ok 0) (fun _ => Except.ok 1)
     "import os".data (by decide)⟩

/-! ## Claim C8 -/

/-- A minimal concrete tool metadata record for witnesses. -/
def demoMeta : ToolMetadata :=
  { name := "calculate_math".data, ttype := ToolType.dynamic
    status := ToolStatus.available, usage_count := 0, error_count := 0
    average_response_time := 0, last_used := none
    execution_status :=
      { is_running := false, progress := 0, current_step := none
        start_time := none, estimated_completion := none, user_request := none } }

/-- C8 (counterexample).  The claim states the retained performance history
holds at most 50 samples with `average_response_time` equal to the mean of
the retained samples.  The source appends, computes the average over the full
(up to 51-element) list, and only then trims: with 50 zero samples and a new
sample of 51, the stored average is 1 (mean of 51 samples) while the mean of
the 50 retained samples is 51/50. -/
theorem C8_average_computed_before_trim :
    (execute_with_monitoring
        (BaseToolState.mk demoMeta (List.replicate 50 (0 : ℚ))) [] 0 51
        (Except.ok (0 : ℚ))).1.performance_history.length = 50
    ∧ (execute_with_monitoring
        (BaseToolState.mk demoMeta (List.replicate 50 (0 : ℚ))) [] 0 51
        (Except.ok (0 : ℚ))).1.metadata.average_response_time = 1
    ∧ ((execute_with_monitoring
        (BaseToolState.mk demoMeta (List.replicate 50 (0 : ℚ))) [] 0 51
        (Except.ok (0 : ℚ))).1.performance_history.sum
       / ((execute_with_monitoring
        (BaseToolState.mk demoMeta (List.replicate 50 (0 : ℚ))) [] 0 51
        (Except.ok (0 : ℚ))).1.performance_history.length : ℚ)) = 51 / 50
    ∧ (1 : ℚ) ≠ 51 / 50 := by
  refine ⟨?_, ?_, ?_, by norm_num⟩ <;>
    simp [execute_with_monitoring, List.sum_replicate, List.length_drop,
      List.drop_append_of_le_length, List.sum_append]

/-- C8 (amended): `execute_with_monitoring` never propagates an exception of
the wrapped `execute` — on exception it increments `error_count` by one, sets
status to ERROR, clears `is_running`, leaves the history untouched and
returns the structured error payload (error string, tool name, elapsed time);
on success it restores status to AVAILABLE and keeps at most 50 retained
samples, with `average_response_time` equal to the mean of the post-append
history BEFORE trimming — which coincides with the mean of the retained
samples whenever no sample was dropped (at most 50 samples after append). -/
theorem C8_monitoring_error_as_data :
    (∀ (α : Type) (st : BaseToolState) (ur : List Char) (t0 t : ℚ) (e : List Char),
      (execute_with_monitoring st ur t0 t (Except.error e : Except (List Char) α)).1.metadata.error_count
          = st.metadata.error_count + 1
      ∧ (execute_with_monitoring st ur t0 t (Except.error e : Except (List Char) α)).1.metadata.status
          = ToolStatus.error
      ∧ (execute_with_monitoring st ur t0 t (Except.error e : Except (List Char) α)).1.metadata.execution_status.is_running
          = false
      ∧ (execute_with_monitoring st ur t0 t (Except.error e : Except (List Char) α)).1.performance_history
          = st.performance_history
      ∧ (execute_with_monitoring st ur t0 t (Except.error e : Except (List Char) α)).2
          = ExecPayload.errorPayload e st.metadata.name t)
    ∧ (∀ (α : Type) (st : BaseToolState) (ur : List Char) (t0 t : ℚ) (res : α),
        (execute_with_monitoring st ur t0 t (Except.ok res)).1.metadata.status
            = ToolStatus.available
        ∧ (execute_with_monitoring st ur t0 t (Except.ok res)).1.metadata.average_response_time
            = (st.performance_history ++ [t]).sum / ((st.performance_history ++ [t]).length : ℚ)
        ∧ (st.performance_history.length ≤ 50 →
            (execute_with_monitoring st ur t0 t (Except.ok res)).1.performance_history.length ≤ 50)
        ∧ ((st.performance_history ++ [t]).length ≤ 50 →
            (execute_with_monitoring st ur t0 t (Except.ok res)).1.metadata.average_response_time
              = (execute_with_monitoring st ur t0 t (Except.ok res)).1.performance_history.sum
                / ((execute_with_monitoring st ur t0 t (Except.ok res)).1.performance_history.length : ℚ))) := by
  constructor
  · intro α st ur t0 t e
    refine ⟨rfl, rfl, rfl, rfl, rfl⟩
  · intro α st ur t0 t res
    refine ⟨rfl, rfl, ?_, ?_⟩
    · intro h
      unfold execute_with_monitoring
      dsimp only
      split
      · simp_all [List.length_drop]
        omega
      · simp_all
    · intro h
      unfold execute_with_monitoring
      dsimp only
      split
      · simp_all
      · rfl

theorem C8_monitoring_error_as_data_witness :
    (execute_with_monitoring (BaseToolState.mk demoMeta []) [] 0 2
        (Except.error "boom".data : Except (List Char) ℚ)).1.metadata.error_count
      = (BaseToolState.mk demoMeta []).metadata.error_count + 1
    ∧ ((BaseToolState.mk demoMeta []).performance_history.length ≤ 50 →
        (execute_with_monitoring (BaseToolState.mk demoMeta []) [] 0 2
          (Except.ok (0 : ℚ))).1.performance_history.length ≤ 50)
    ∧ (execute_with_monitoring (BaseToolState.mk demoMeta []) [] 0 2
        (Except.ok (0 : ℚ))).1.metadata.average_response_time
      = (execute_with_monitoring (BaseToolState.mk demoMeta []) [] 0 2
          (Except.ok (0 : ℚ))).1.performance_history.sum
        / ((execute_with_monitoring (BaseToolState.mk demoMeta []) [] 0 2
          (Except.ok (0 : ℚ))).1.performance_history.length : ℚ) :=
  ⟨(C8_monitoring_error_as_data.1 ℚ (BaseToolState.mk demoMeta []) [] 0 2 "boom".data).1,
   (C8_monitoring_error_as_data.2 ℚ (BaseToolState.mk demoMeta []) [] 0 2 (0 : ℚ)).2.2.1,
   (C8_monitoring_error_as_data.2 ℚ (BaseToolState.mk demoMeta []) [] 0 2 (0 : ℚ)).2.2.2
     (by decide)⟩

/-! ## Claim C6 -/

lemma shrinkLoop_removals_le (tokenLen : List Char → Nat) (ctxSize : Nat)
    (sysPrompt : List Char) (msgs : List Msg) (toolInjs : List Injection) :
    (shrinkLoop tokenLen ctxSize sysPrompt toolInjs msgs).2 ≤ msgs.length := by
  induction msgs generalizing toolInjs with
  | nil => simp [shrinkLoop]; split <;> simp
  | cons m rest ih =>
    simp only [shrinkLoop]
    split
    · simp
    · simpa using Nat.succ_le_succ (ih [])

lemma shrinkLoop_ok_fits (tokenLen : List Char → Nat) (ctxSize : Nat)
    (sysPrompt p : List Char) (msgs : List Msg) (toolInjs : List Injection)
    (h : (shrinkLoop tokenLen ctxSize sysPrompt toolInjs msgs).1 = Except.ok p) :
    10 * tokenLen p < 9 * ctxSize := by
  induction msgs generalizing toolInjs with
  | nil =>
    simp only [shrinkLoop] at h
    split at h <;> simp_all
  | cons m rest ih =>
    simp only [shrinkLoop] at h
    split at h
    · simp_all
    · exact ih [] h

lemma shrinkLoop_error (tokenLen : List Char → Nat) (ctxSize : Nat)
    (sysPrompt e : List Char) (msgs : List Msg) (toolInjs : List Injection)
    (h : (shrinkLoop tokenLen ctxSize sysPrompt toolInjs msgs).1 = Except.error e) :
    e = fatalOversize
    ∧ ¬ 10 * tokenLen (buildFullPrompt sysPrompt
          (if msgs = [] then toolInjs else []) []) < 9 * ctxSize := by
  induction msgs generalizing toolInjs with
  | nil =>
    simp only [shrinkLoop] at h
    split at h <;> simp_all
  | cons m rest ih =>
    simp only [shrinkLoop] at h
    split at h
    · simp_all
    · simpa using ih [] h

/-- C6: for every history of N entries, `generate_prompt` performs at most N
oldest-entry removals; on success the returned prompt's token estimate is
below 90% of the context budget; the fatal error is raised exactly at the
point where zero history entries remain and the (injection-free, since
`tool_results` is cleared inside the first iteration when the history was
non-empty) prompt is still oversized; and the stored history is never shrunk
— only the copy — while `tool_results` is cleared. -/
theorem C6_context_shrink_termination (tokenLen : List Char → Nat)
    (ctxSize : Nat) (sysPrompt : List Char) (history : List Msg)
    (toolResults : List ToolResultEntry) :
    (generate_prompt tokenLen ctxSize sysPrompt history toolResults).removals
      ≤ history.length
    ∧ (∀ p, (generate_prompt tokenLen ctxSize sysPrompt history toolResults).result
          = Except.ok p → 10 * tokenLen p < 9 * ctxSize)
    ∧ (∀ e, (generate_prompt tokenLen ctxSize sysPrompt history toolResults).result
          = Except.error e →
        e = fatalOversize
        ∧ ¬ 10 * tokenLen (buildFullPrompt sysPrompt
              (if history = [] then toolInjectionsOf toolResults else []) [])
            < 9 * ctxSize)
    ∧ (generate_prompt tokenLen ctxSize sysPrompt history toolResults).history = history
    ∧ (generate_prompt tokenLen ctxSize sysPrompt history toolResults).tool_results
        = [] := by
  refine ⟨?_, ?_, ?_, rfl, rfl⟩
  · simpa [generate_prompt] using
      shrinkLoop_removals_le tokenLen ctxSize sysPrompt (history.map prefixSpeaker)
        (toolInjectionsOf toolResults)
  · intro p hp
    exact shrinkLoop_ok_fits tokenLen ctxSize sysPrompt p (history.map prefixSpeaker)
      (toolInjectionsOf toolResults) hp
  · intro e he
    have h := shrinkLoop_error tokenLen ctxSize sysPrompt e (history.map prefixSpeaker)
      (toolInjectionsOf toolResults) he
    simpa [List.map_eq_nil_iff] using h

theorem C6_context_shrink_termination_witness :
    10 * (fun (l : List Char) => l.length) "Luna: ".data < 9 * 100
    ∧ (fatalOversize = fatalOversize
        ∧ ¬ 10 * (fun (l : List Char) => l.length)
              (buildFullPrompt [] (if ([] : List Msg) = []
                then toolInjectionsOf [] else []) []) < 9 * 0) :=
  ⟨(C6_context_shrink_termination (fun l => l.length) 100 [] [] []).2.1
     "Luna: ".data (by rfl),
   (C6_context_shrink_termination (fun l => l.length) 0 [] [] []).2.2.1
     fatalOversize (by rfl)⟩

/-! ## Claim C5 -/

@[simp] lemma countTextClearEvents_append (a b : List Ev) :
    countTextClearEvents (a ++ b) = countTextClearEvents a + countTextClearEvents b := by
  unfold countTextClearEvents
  rw [List.filter_append, List.length_append]

@[simp] lemma updateCombined_text_flag (s : SigState) :
    (updateCombinedThinking s).text_llm_thinking = s.text_llm_thinking := by
  unfold updateCombinedThinking
  dsimp only
  split <;> rfl

@[simp] lemma updateCombined_countTC (s : SigState) :
    countTextClearEvents (updateCombinedThinking s).events
      = countTextClearEvents s.events := by
  unfold updateCombinedThinking
  dsimp only
  split
  · rfl
  · simp [countTextClearEvents]

@[simp] lemma setTextThinking_text_flag (s : SigState) (v : Bool) :
    (setTextThinking s v).text_llm_thinking = v := by
  simp [setTextThinking]

@[simp] lemma setTextThinking_countTC (s : SigState) (v : Bool) :
    countTextClearEvents (setTextThinking s v).events
      = countTextClearEvents s.events + (if v = false then 1 else 0) := by
  unfold setTextThinking
  rw [updateCombined_countTC]
  cases v <;> simp [countTextClearEvents]

@[simp] lemma setAISpeaking_text_flag (s : SigState) (v : Bool) :
    (setAISpeaking s v).text_llm_thinking = s.text_llm_thinking := rfl

@[simp] lemma setAISpeaking_countTC (s : SigState) (v : Bool) :
    countTextClearEvents (setAISpeaking s v).events
      = countTextClearEvents s.events := by
  unfold setAISpeaking
  simp [countTextClearEvents]

@[simp] lemma pushEv_text_flag (s : SigState) (e : Ev) :
    (pushEv s e).text_llm_thinking = s.text_llm_thinking := rfl

@[simp] lemma pushEv_countTC (s : SigState) :
    countTextClearEvents (pushEv s Ev.resetNextMessage).events
      = countTextClearEvents s.events := by
  unfold pushEv
  simp [countTextClearEvents]

@[simp] lemma setAIThinkingDirect_text_flag (s : SigState) (v : Bool) :
    (setAIThinkingDirect s v).text_llm_thinking = s.text_llm_thinking := rfl

@[simp] lemma setAIThinkingDirect_AI_flag (s : SigState) (v : Bool) :
    (setAIThinkingDirect s v).AI_thinking = v := rfl

@[simp] lemma setAIThinkingDirect_countTC (s : SigState) (v : Bool) :
    countTextClearEvents (setAIThinkingDirect s v).events
      = countTextClearEvents s.events := by
  unfold setAIThinkingDirect
  simp [countTextClearEvents]

/-- C5 (counterexample).  The claim states that on a cancelled primary
generation the thinking flag set at the start — `text_llm_thinking` — is
cleared exactly once.  In the run below (enabled, request OK, one streamed
chunk, cancellation observed before it) the partial output is discarded and
no history entry is written, but `text_llm_thinking` is still set at the end
and no clear event was emitted: the cancellation path resets the combined
`AI_thinking` flag through the legacy direct setter instead of clearing the
per-generator flag. -/
theorem C5_cancel_leaves_text_thinking_set :
    (promptRun true true [] true ["hi".data] (some 0) initLLMSt).history = []
    ∧ (promptRun true true [] true ["hi".data] (some 0) initLLMSt).played = []
    ∧ (promptRun true true [] true ["hi".data] (some 0) initLLMSt).wsSent = []
    ∧ (promptRun true true [] true ["hi".data] (some 0) initLLMSt).sig.text_llm_thinking = true
    ∧ countTextClearEvents (promptRun true true [] true ["hi".data] (some 0) initLLMSt).sig.events = 0
    ∧ (promptRun true true [] true ["hi".data] (some 0) initLLMSt).sig.AI_thinking = false := by
  decide

/-- C5 (amended): if the cooperative cancellation flag is observed during a
primary generation, the turn's partial output is discarded — history, TTS
playback and websocket sends are untouched — and `next_cancelled` is reset;
but the per-generator `text_llm_thinking` flag set at the start of the turn
is NOT cleared (it remains set and no clear event is emitted); instead the
combined `AI_thinking` flag is forced false through the legacy direct setter.
On a non-cancelled completion `text_llm_thinking` is cleared exactly once. -/
theorem C5_cancellation_discards_partial_output :
    (∀ (bl chunks : List (List Char)) (k : Nat) (st : LLMSt),
      (promptRun true true bl true chunks (some k) st).history = st.history
      ∧ (promptRun true true bl true chunks (some k) st).played = st.played
      ∧ (promptRun true true bl true chunks (some k) st).wsSent = st.wsSent
      ∧ (promptRun true true bl true chunks (some k) st).nextCancelled = false
      ∧ (promptRun true true bl true chunks (some k) st).sig.text_llm_thinking = true
      ∧ countTextClearEvents (promptRun true true bl true chunks (some k) st).sig.events
          = countTextClearEvents st.sig.events
      ∧ (promptRun true true bl true chunks (some k) st).sig.AI_thinking = false)
    ∧ (∀ (bl chunks : List (List Char)) (st : LLMSt),
        (promptRun true true bl true chunks none st).sig.text_llm_thinking = false
        ∧ countTextClearEvents (promptRun true true bl true chunks none st).sig.events
            = countTextClearEvents st.sig.events + 1) := by
  constructor
  · intro bl chunks k st
    simp [promptRun]
  · intro bl chunks st
    simp only [promptRun]
    repeat' split
    all_goals simp_all

/-! ## Claim C3: marker-scanning lemmas -/

lemma scanCloseInner_len :
    ∀ (l : List Char) (p : List Char × List Char),
      scanCloseInner l = some p → p.2.length < l.length := by
  intro l
  induction l with
  | nil => intro p h; simp [scanCloseInner] at h
  | cons c rest ih =>
    intro p h
    simp only [scanCloseInner] at h
    split at h
    · cases h
      simp
    · split at h
      · cases h
      · cases hs : scanCloseInner rest with
        | none => rw [hs] at h; cases h
        | some q =>
          rw [hs] at h
          simp only [Option.map_some'] at h
          cases h
          exact Nat.lt_succ_of_lt (ih q hs)

lemma matchAfter_some_len (l : List Char) (rem : List Char)
    (h : matchAfter l = some rem) : rem.length < l.length := by
  unfold matchAfter matchInner at h
  split at h
  · cases hs : scanCloseInner (l.drop MK.length) with
    | none => rw [hs] at h; cases h
    | some q =>
      rw [hs] at h
      simp only [Option.map_some'] at h
      cases h
      calc q.2.length < (l.drop MK.length).length := scanCloseInner_len _ q hs
        _ ≤ l.length := by simp [List.length_drop]
  · cases h

lemma rmF_eq : ∀ (n m : Nat) (l : List Char),
    l.length ≤ n → l.length ≤ m → rmF n l = rmF m l := by
  intro n
  induction n with
  | zero =>
    intro m l hn _
    have : l = [] := List.length_eq_zero.mp (Nat.le_zero.mp hn)
    subst this
    cases m <;> rfl
  | succ n ih =>
    intro m l hn hm
    cases l with
    | nil => cases m <;> rfl
    | cons c rest =>
      cases m with
      | zero => simp at hm
      | succ m =>
        simp only [rmF]
        cases hma : matchAfter (c :: rest) with
        | some rem =>
          have hlen := matchAfter_some_len _ _ hma
          simp only [List.length_cons] at hlen hn hm
          exact ih m rem (by omega) (by omega)
        | none =>
          simp only [List.length_cons] at hn hm
          rw [ih m rest (by omega) (by omega)]

lemma removeMarkers_cons_none (c : Char) (rest : List Char)
    (h : matchAfter (c :: rest) = none) :
    removeMarkers (c :: rest) = c :: removeMarkers rest := by
  unfold removeMarkers
  simp only [List.length_cons, rmF, h]

lemma removeMarkers_of_matchAfter (l rem : List Char)
    (h : matchAfter l = some rem) : removeMarkers l = removeMarkers rem := by
  cases l with
  | nil => simp [matchAfter, matchInner, MK] at h
  | cons c rest =>
    unfold removeMarkers
    simp only [List.length_cons, rmF, h]
    exact rmF_eq rest.length rem.length rem
      (by have := matchAfter_some_len _ _ h; simp only [List.length_cons] at this; omega)
      le_rfl

lemma containsMK_false_drop (l : List Char) (h : containsMK l = false) :
    ∀ p, MK.isPrefixOf (l.drop p) = false := by
  induction l with
  | nil => intro p; simp [List.drop_nil]; decide
  | cons c rest ih =>
    simp only [containsMK, Bool.or_eq_false_iff] at h
    intro p
    cases p with
    | zero => exact h.1
    | succ p => exact ih h.2 p

lemma containsMK_append_right_false (a b : List Char)
    (h : containsMK (a ++ b) = false) : containsMK b = false := by
  induction a with
  | nil => exact h
  | cons c a2 ih =>
    simp only [List.cons_append, containsMK, Bool.or_eq_false_iff] at h
    exact ih h.2

lemma isPrefixOf_extend (u v : List Char) (h : MK.isPrefixOf u = true) :
    MK.isPrefixOf (u ++ v) = true := by
  rw [List.isPrefixOf_iff_prefix] at h ⊢
  exact h.trans (List.prefix_append u v)

lemma containsMK_of_isPrefixOf (l : List Char) (h : MK.isPrefixOf l = true) :
    containsMK l = true := by
  cases l with
  | nil => simp [MK] at h
  | cons c rest => simp [containsMK, h]

/-- The marker prefix has no nontrivial border: it cannot be written as one of
its prefixes followed by another of its prefixes. -/
lemma mk_border : ∀ d, d < MK.length → 0 < d →
    MK.take d ++ MK.take (MK.length - d) ≠ MK := by decide

/-- No regex match can start inside `a` when the original text `a ++ b`
contains no occurrence of the marker prefix: an occurrence would either lie
within `a ++ b` or straddle into the marker that follows `a`, which the
border-freeness of `MK` rules out. -/
lemma no_match_in_left (a b x : List Char) (h : containsMK (a ++ b) = false) :
    ∀ p, p < a.length → MK.isPrefixOf (a.drop p ++ (MK ++ x)) = false := by
  intro p hp
  by_contra hpre
  have hpre : MK.isPrefixOf (a.drop p ++ (MK ++ x)) = true := by
    cases hb : MK.isPrefixOf (a.drop p ++ (MK ++ x))
    · exact absurd hb hpre
    · rfl
  have hMKs : MK <+: a.drop p ++ (MK ++ x) := List.isPrefixOf_iff_prefix.mp hpre
  have hslen : 0 < (a.drop p).length := by
    simp only [List.length_drop]
    omega
  have hdropfalse : MK.isPrefixOf ((a ++ b).drop p) = false :=
    containsMK_false_drop _ h p
  rw [List.drop_append_of_le_length (Nat.le_of_lt hp)] at hdropfalse
  rcases le_or_lt MK.length (a.drop p).length with hle | hlt
  · -- the occurrence lies inside `a.drop p`, hence inside `a ++ b`
    have htake : MK = (a.drop p ++ (MK ++ x)).take MK.length :=
      List.prefix_iff_eq_take.mp hMKs
    rw [List.take_append_of_le_length hle] at htake
    have hpref : MK <+: a.drop p := by
      rw [htake]
      exact List.take_prefix _ _
    have : MK <+: a.drop p ++ b := hpref.trans (List.prefix_append _ _)
    rw [← List.isPrefixOf_iff_prefix] at this
    rw [this] at hdropfalse
    cases hdropfalse
  · -- the occurrence straddles the seam: `MK` would have a border
    have htake : MK = (a.drop p ++ (MK ++ x)).take MK.length :=
      List.prefix_iff_eq_take.mp hMKs
    rw [List.take_append_eq_append_take] at htake
    have h1 : (a.drop p).take MK.length = a.drop p :=
      List.take_of_length_le (Nat.le_of_lt hlt)
    have h2 : (MK ++ x).take (MK.length - (a.drop p).length)
        = MK.take (MK.length - (a.drop p).length) :=
      List.take_append_of_le_length (Nat.sub_le _ _)
    rw [h1, h2] at htake
    set d := (a.drop p).length with hd
    have hseq : a.drop p = MK.take d := by
      have h3 := congrArg (fun t => List.take d t) htake
      simp only at h3
      rw [hd, List.take_left] at h3
      exact h3.symm
    rw [hseq] at htake
    exact mk_border d hlt hslen htake.symm

lemma scanCloseInner_clean (inner b : List Char)
    (h : ∀ c ∈ inner, c ≠ ']' ∧ c ≠ '\n') :
    scanCloseInner (inner ++ ']' :: b) = some (inner, b) := by
  induction inner with
  | nil => simp [scanCloseInner]
  | cons c rest ih =>
    have hc := h c (by simp)
    simp only [List.cons_append, scanCloseInner, if_neg hc.1, if_neg hc.2,
      List.append_eq, ih (fun d hd => h d (by simp [hd])), Option.map_some']

lemma matchAfter_marker (inner b : List Char)
    (h : ∀ c ∈ inner, c ≠ ']' ∧ c ≠ '\n') :
    matchAfter (MK ++ (inner ++ ']' :: b)) = some b := by
  unfold matchAfter matchInner
  rw [if_pos (List.isPrefixOf_iff_prefix.mpr (List.prefix_append MK _))]
  rw [List.drop_left, scanCloseInner_clean inner b h]
  rfl

lemma rm_prepend (a rest : List Char)
    (h : ∀ p, p < a.length → MK.isPrefixOf (a.drop p ++ rest) = false) :
    removeMarkers (a ++ rest) = a ++ removeMarkers rest := by
  induction a with
  | nil => simp
  | cons c a2 ih =>
    have h0 : MK.isPrefixOf ((c :: a2) ++ rest) = false := by
      have := h 0 (by simp)
      simpa using this
    have hnone : matchAfter ((c :: a2) ++ rest) = none := by
      unfold matchAfter matchInner
      rw [List.cons_append] at h0 ⊢
      rw [if_neg (by simp [h0])]
      rfl
    rw [List.cons_append] at hnone ⊢
    rw [removeMarkers_cons_none c (a2 ++ rest) hnone]
    rw [ih (fun p hp => by simpa using h (p + 1) (by simpa using Nat.succ_lt_succ hp))]
    rfl

lemma rm_self (l : List Char) (h : containsMK l = false) :
    removeMarkers l = l := by
  induction l with
  | nil => rfl
  | cons c rest ih =>
    simp only [containsMK, Bool.or_eq_false_iff] at h
    have hnone : matchAfter (c :: rest) = none := by
      unfold matchAfter matchInner
      rw [if_neg (by simp [h.1])]
      rfl
    rw [removeMarkers_cons_none c rest hnone, ih h.2]

lemma containsMK_extend_right (u v : List Char) (h : containsMK u = true) :
    containsMK (u ++ v) = true := by
  induction u with
  | nil => cases h
  | cons c rest ih =>
    simp only [containsMK, Bool.or_eq_true_iff] at h
    rcases h with h | h
    · have h2 := isPrefixOf_extend (c :: rest) v h
      rw [List.cons_append] at h2
      simp only [List.cons_append, containsMK, List.append_eq, h2, Bool.true_or]
    · simp [List.cons_append, containsMK, ih h]

lemma containsMK_extend_left (x w : List Char) (h : containsMK w = true) :
    containsMK (x ++ w) = true := by
  induction x with
  | nil => exact h
  | cons c x2 ih => simp [List.cons_append, containsMK, ih]

lemma containsMK_infix (w m : List Char) (hinf : w <:+: m)
    (h : containsMK w = true) : containsMK m = true := by
  obtain ⟨s, t, rfl⟩ := hinf
  rw [List.append_assoc]
  exact containsMK_extend_left s (w ++ t) (containsMK_extend_right w t h)

lemma hasMarker_containsMK (l : List Char) (h : hasMarker l = true) :
    containsMK l = true := by
  induction l with
  | nil => cases h
  | cons c rest ih =>
    simp only [hasMarker, Bool.or_eq_true_iff] at h
    rcases h with h | h
    · cases hma : matchAfter (c :: rest) with
      | none => rw [hma] at h; cases h
      | some rem =>
        unfold matchAfter matchInner at hma
        split at hma
        · simp only [containsMK]
          rename_i hpre
          simp [hpre]
        · cases hma
    · simp [containsMK, ih h]

lemma hasMarker_extend_left (x w : List Char) (h : hasMarker w = true) :
    hasMarker (x ++ w) = true := by
  induction x with
  | nil => exact h
  | cons c x2 ih => simp [List.cons_append, hasMarker, ih]

lemma hasMarker_of_matchAfter (l rem : List Char) (h : matchAfter l = some rem) :
    hasMarker l = true := by
  cases l with
  | nil => simp [matchAfter, matchInner, MK] at h
  | cons c rest => simp [hasMarker, h]

lemma firstTriggerInner_of_hasMarker (l : List Char) (h : hasMarker l = true) :
    ∃ i, firstTriggerInner l = some i := by
  induction l with
  | nil => cases h
  | cons c rest ih =>
    simp only [hasMarker, Bool.or_eq_true_iff] at h
    cases hmi : matchInner (c :: rest) with
    | some p => exact ⟨p.1, by simp [firstTriggerInner, hmi]⟩
    | none =>
      rcases h with h | h
      · rw [show matchAfter (c :: rest) = none by simp [matchAfter, hmi]] at h
        cases h
      · obtain ⟨i, hi⟩ := ih h
        exact ⟨i, by simp [firstTriggerInner, hmi, hi]⟩

lemma pyStrip_within (l : List Char) : pyStrip l <:+: l := by
  unfold pyStrip
  have h1 : l.dropWhile isPySpace <:+ l := List.dropWhile_suffix isPySpace
  have h2 : ((l.dropWhile isPySpace).reverse.dropWhile isPySpace).reverse
      <+: l.dropWhile isPySpace := by
    rw [← List.reverse_suffix]
    simpa using List.dropWhile_suffix (l := (l.dropWhile isPySpace).reverse) isPySpace
  exact h2.isInfix.trans h1.isInfix

/-- The history effect of a non-cancelled primary generation whose message
contains a complete trigger marker: exactly one entry is appended, namely the
marker-stripped (or, if blacklisted, placeholder) text. -/
lemma promptRun_history_ok (bl chunks : List (List Char)) (st : LLMSt)
    (i : List Char)
    (h1 : containsMK chunks.flatten = true)
    (h2 : firstTriggerInner chunks.flatten = some i) :
    (promptRun true true bl true chunks none st).history
      = st.history
        ++ [if is_filtered bl (pyStrip (removeMarkers chunks.flatten)) = true
            then "Filtered.".data
            else pyStrip (removeMarkers chunks.flatten)] := by
  simp only [promptRun]
  simp [h1, h2]
  split <;> simp

/-- C3 (counterexample).  The claim states no history entry ever contains a
`[TOOL_TRIGGER:...]` marker.  `re.sub` removes leftmost non-overlapping
matches in a single pass, so deleting a marker can splice the surrounding
text into a NEW complete marker: for the streamed message
`[TOOL[TOOL_TRIGGER:a]_TRIGGER:b]` the sub removes the inner match and the
appended history entry is `[TOOL_TRIGGER:b]` — a complete marker. -/
theorem C3_spliced_marker_reaches_history :
    (promptRun true true [] true ["[TOOL[TOOL_TRIGGER:a]_TRIGGER:b]".data]
        none initLLMSt).history = ["[TOOL_TRIGGER:b]".data]
    ∧ hasMarker "[TOOL_TRIGGER:b]".data = true := by
  constructor
  · decide
  · decide

/-- C3 (amended): the tool-invocation generation never appends to history;
and the primary path strips trigger markers before appending, so that for a
message of the form `pre ++ marker ++ post` where the surrounding text
`pre ++ post` contains no occurrence of the marker opener (in particular no
second marker and no spliced one), the single appended entry contains no
complete marker.  (Without that proviso a spliced marker can survive, as the
counterexample shows.) -/
theorem C3_no_tool_text_in_history :
    (∀ (enabled : Bool) (out : ToolLLMOutcome) (st : LLMSt),
      (asyncPromptRun enabled out st).history = st.history)
    ∧ (∀ (bl : List (List Char)) (st : LLMSt) (a inner b : List Char),
        containsMK (a ++ b) = false →
        (∀ c ∈ inner, c ≠ ']' ∧ c ≠ '\n') →
        ∃ e, (promptRun true true bl true [a ++ (MK ++ (inner ++ ']' :: b))] none st).history
              = st.history ++ [e]
            ∧ hasMarker e = false) := by
  constructor
  · intro enabled out st
    unfold asyncPromptRun
    split
    · rfl
    · cases out with
      | requestExn e => rfl
      | cancelled => rfl
      | noToolsNeeded => rfl
      | calls results =>
        dsimp only
        split <;> rfl
      | noCalls => rfl
  · intro bl st a inner b hab hinner
    have hflat : ([a ++ (MK ++ (inner ++ ']' :: b))] : List (List Char)).flatten
        = a ++ (MK ++ (inner ++ ']' :: b)) := by simp
    have hma : matchAfter (MK ++ (inner ++ ']' :: b)) = some b :=
      matchAfter_marker inner b hinner
    have hcmk : containsMK (a ++ (MK ++ (inner ++ ']' :: b))) = true :=
      containsMK_extend_left a _ (containsMK_of_isPrefixOf _
        (List.isPrefixOf_iff_prefix.mpr (List.prefix_append MK _)))
    have hhm : hasMarker (a ++ (MK ++ (inner ++ ']' :: b))) = true :=
      hasMarker_extend_left a _ (hasMarker_of_matchAfter _ b hma)
    obtain ⟨i, hi⟩ := firstTriggerInner_of_hasMarker _ hhm
    have hrm : removeMarkers (a ++ (MK ++ (inner ++ ']' :: b))) = a ++ b := by
      rw [rm_prepend a (MK ++ (inner ++ ']' :: b)) (no_match_in_left a b _ hab)]
      rw [removeMarkers_of_matchAfter _ b hma]
      rw [rm_self b (containsMK_append_right_false a b hab)]
    have hist := promptRun_history_ok bl [a ++ (MK ++ (inner ++ ']' :: b))] st i
      (by rw [hflat]; exact hcmk) (by rw [hflat]; exact hi)
    rw [hflat, hrm] at hist
    by_cases hf : is_filtered bl (pyStrip (a ++ b)) = true
    · rw [if_pos hf] at hist
      exact ⟨_, hist, by decide⟩
    · rw [if_neg hf] at hist
      refine ⟨_, hist, ?_⟩
      by_contra hhm2
      have hhm2 : hasMarker (pyStrip (a ++ b)) = true := by
        cases hb : hasMarker (pyStrip (a ++ b))
        · exact absurd hb hhm2
        · rfl
      have hcc := containsMK_infix _ _ (pyStrip_within (a ++ b))
        (hasMarker_containsMK _ hhm2)
      rw [hab] at hcc
      cases hcc

theorem C3_no_tool_text_in_history_witness :
    (asyncPromptRun true ToolLLMOutcome.noCalls initLLMSt).history = initLLMSt.history
    ∧ ∃ e, (promptRun true true [] true
          [([] : List Char) ++ (MK ++ ("w".data ++ ']' :: ([] : List Char)))]
          none initLLMSt).history = initLLMSt.history ++ [e]
        ∧ hasMarker e = false :=
  ⟨C3_no_tool_text_in_history.1 true ToolLLMOutcome.noCalls initLLMSt,
   C3_no_tool_text_in_history.2 [] initLLMSt [] "w".data [] (by decide) (by decide)⟩

end Neuro
